import Mathlib

/-!
Verification of the two-agent auto-chat CLI (jido-mondo).

The development shallowly embeds the fully-featured variant of the script
(the one with a configurable turn cap, configurable context window with
trimming, and temperature / repeat-penalty passthrough).  Pure data flow is
translated directly; the external Ollama backend is modelled as an oracle
function from the built chat request to a result (success payload or error),
indexed by the turn number so that distinct turns may observe distinct
backend behaviour.  JavaScript strings become Lean `String`, arrays become
`List`, `undefined`-able values become `Option`, and the numeric
`chatMaxLength` setting is an `Int` so that degenerate (non-positive)
configurations are representable exactly as in the source.
-/

namespace JidoMondo

/-- A transcript entry: `{ name, message }` in the source. -/
structure Message where
  name : String
  message : String
deriving DecidableEq, Repr

/-- Chat roles used by the Ollama chat protocol. -/
inductive Role where
  | system
  | assistant
  | user
deriving DecidableEq, Repr

/-- A role-annotated message sent to the backend: `{ role, content }`. -/
structure ContextMessage where
  role : Role
  content : String
deriving DecidableEq, Repr

/-- The run configuration, as loaded from `settings.json` (after the
defaulting performed at load time).  Optional decoding parameters stay
`Option` because the source keeps them `undefined` when unset. -/
structure Config where
  agent1Name : String
  agent2Name : String
  agent1System : String
  agent2System : String
  ollamaHost : String
  ollamaModel : String
  ollamaKeepAlive : Option String
  maxTurns : Nat
  chatMaxLength : Int
  temperature : Option Rat
  repeatPenalty : Option Rat
deriving DecidableEq, Repr

/-- Translation of `trimChatHistory(history, maxLength)`:
`if (history.length <= maxLength) return history;
 return history.slice(history.length - maxLength);`.
`slice` with a start index at or beyond the length yields `[]`, which is
what `List.drop` does as well, so the translation is exact, including for
negative `maxLength`. -/
def trimChatHistory (history : List Message) (maxLength : Int) : List Message :=
  if (history.length : Int) ≤ maxLength then history
  else history.drop ((history.length : Int) - maxLength).toNat

/-- The role assigned to a historical message from the viewpoint of
`currentAgent`: `msg.name === currentAgent ? "assistant" : "user"`. -/
def roleFor (currentAgent : String) (msg : Message) : Role :=
  if msg.name = currentAgent then Role.assistant else Role.user

/-- Re-labeling of one transcript entry into a context message. -/
def relabel (currentAgent : String) (msg : Message) : ContextMessage :=
  ⟨roleFor currentAgent msg, msg.message⟩

/-- The optional leading system message:
`if (systemPrompt) messages.push({ role: "system", content: systemPrompt })`
(a JavaScript string is truthy iff non-empty). -/
def systemMessages (systemPrompt : String) : List ContextMessage :=
  if systemPrompt ≠ "" then [⟨Role.system, systemPrompt⟩] else []

/-- The full ordered message list built inside `sendMessageToAgent`:
optional system message, then the trimmed history re-labeled from the
acting agent's viewpoint.  The trim bound is
`chatMaxLength - (systemPrompt ? 1 : 0)`. -/
def buildContext (cfg : Config) (history : List Message)
    (currentAgent systemPrompt : String) : List ContextMessage :=
  systemMessages systemPrompt
    ++ (trimChatHistory history
          (cfg.chatMaxLength - (if systemPrompt ≠ "" then 1 else 0))).map
        (relabel currentAgent)

/-- Length of a trimmed history: all of it if it fits, otherwise exactly
the (clamped) bound. -/
theorem trimChatHistory_length (history : List Message) (maxLength : Int) :
    (trimChatHistory history maxLength).length
      = min history.length (max 0 maxLength).toNat := by
  unfold trimChatHistory
  split <;> simp [List.length_drop] <;> omega

/-- Trimming keeps exactly the last `max 0 maxLength` entries. -/
theorem trimChatHistory_eq_drop (history : List Message) (maxLength : Int) :
    trimChatHistory history maxLength
      = history.drop (history.length - (max 0 maxLength).toNat) := by
  unfold trimChatHistory
  split
  · have h0 : history.length - (max 0 maxLength).toNat = 0 := by omega
    rw [h0, List.drop_zero]
  · rcases le_or_lt 0 maxLength with hm | hm
    · congr 1
      omega
    · rw [List.drop_eq_nil_of_le (by omega), List.drop_eq_nil_of_le (by omega)]

/-- The WhiteSpace / LineTerminator character class of JavaScript
`String.prototype.trim` (ECMA-262). -/
def isJsWhitespace (c : Char) : Bool :=
  [9, 10, 11, 12, 13, 32, 160, 0x1680,
   0x2000, 0x2001, 0x2002, 0x2003, 0x2004, 0x2005, 0x2006, 0x2007,
   0x2008, 0x2009, 0x200A, 0x2028, 0x2029, 0x202F, 0x205F, 0x3000,
   0xFEFF].contains c.toNat

/-- JavaScript `s.trim()`: strip leading and trailing whitespace. -/
def jsTrim (s : String) : String :=
  ⟨(((s.data.dropWhile isJsWhitespace).reverse.dropWhile isJsWhitespace).reverse)⟩

/-- The `message` field of an Ollama chat response; its `content` may be
absent (`null` / `undefined`). -/
structure ResponseMessage where
  content : Option String
deriving DecidableEq, Repr

/-- An Ollama chat response; its `message` field may be absent. -/
structure ChatResponse where
  message : Option ResponseMessage
deriving DecidableEq, Repr

/-- The error value caught in `sendMessageToAgent`'s catch block: a `code`
(absent for non-system errors) and a message string. -/
structure OllamaError where
  code : Option String
  message : String
deriving DecidableEq, Repr

/-- What one backend call produces: a response object (possibly with
missing fields), or a thrown error. -/
inductive BackendResult where
  | ok (response : Option ChatResponse)
  | err (e : OllamaError)
deriving DecidableEq, Repr

/-- The chat request handed to `client.chat`: model name, keep-alive,
ordered messages, and the `options` object assembled by conditional
spreads. The options object is modelled as an association list so that
a key's very presence is observable. -/
structure ChatRequest where
  model : String
  keep_alive : Option String
  messages : List ContextMessage
  options : List (String × Rat)
deriving DecidableEq, Repr

/-- Translation of `{...(temperature !== undefined && { temperature }),
     ...(repeatPenalty !== undefined && { repeat_penalty: repeatPenalty })}`:
each key is present exactly when the configured value is defined. -/
def chatOptions (temperature repeatPenalty : Option Rat) : List (String × Rat) :=
  (match temperature with
    | some t => [("temperature", t)]
    | none => [])
    ++ (match repeatPenalty with
    | some r => [("repeat_penalty", r)]
    | none => [])

/-- The complete outgoing request built inside `sendMessageToAgent`. -/
def buildRequest (cfg : Config) (history : List Message)
    (currentAgent systemPrompt : String) : ChatRequest :=
  { model := cfg.ollamaModel
    keep_alive := cfg.ollamaKeepAlive
    messages := buildContext cfg history currentAgent systemPrompt
    options := chatOptions cfg.temperature cfg.repeatPenalty }

/-- Translation of `response?.message?.content?.trim() ?? "No valid content received from
the Ollama model."` : optional chaining flattens the three layers; the
fallback fires only when the chain is nullish. -/
def extractResponseText (response : Option ChatResponse) : String :=
  match (response.bind (fun r => r.message)).bind (fun m => m.content) with
  | some c => jsTrim c
  | none => "No valid content received from the Ollama model."

/-- A single-quote character, used inside the error placholder strings. -/
def sq : String := String.singleton (Char.ofNat 39)

/-- JavaScript `s.includes(pat)` for a non-empty pattern. -/
def jsIncludes (s pat : String) : Bool := (s.splitOn pat).length > 1

/-- The catch block of `sendMessageToAgent`: an `ECONNREFUSED` code gives
the connection placeholder; otherwise a message mentioning
`pull <model>: file does not exist` gives the model-not-found placeholder;
anything else gives the generic placeholder. -/
def errorToResponseText (cfg : Config) (e : OllamaError) : String :=
  if e.code = some "ECONNREFUSED" then
    "(Error: Could not connect to Ollama server at " ++ cfg.ollamaHost
      ++ ". Is Ollama running?)"
  else if jsIncludes e.message ("pull " ++ cfg.ollamaModel ++ ": file does not exist") then
    "(Error: Ollama model " ++ sq ++ cfg.ollamaModel ++ sq
      ++ " not found. Did you run " ++ sq ++ "ollama run " ++ cfg.ollamaModel ++ sq ++ "?)"
  else
    "(Error: Could not generate response - " ++ e.message ++ ")"

/-- Translation of `sendMessageToAgent(history, currentAgent, systemPrompt)` with the
backend supplied as an oracle: build the context, issue exactly one call,
and convert either outcome into a displayable string (the function is
total — no exception escapes). -/
def sendMessageToAgent (cfg : Config) (backend : ChatRequest → BackendResult)
    (history : List Message) (currentAgent systemPrompt : String) : String :=
  match backend (buildRequest cfg history currentAgent systemPrompt) with
  | .ok r => extractResponseText r
  | .err e => errorToResponseText cfg e

/-- Translation of `currentAgentIndex === 1 ? agent1Name : agent2Name`. -/
def agentName (cfg : Config) (i : Nat) : String :=
  if i = 1 then cfg.agent1Name else cfg.agent2Name

/-- Translation of `currentAgentIndex === 1 ? agent1System : agent2System`. -/
def agentSystem (cfg : Config) (i : Nat) : String :=
  if i = 1 then cfg.agent1System else cfg.agent2System

/-- Translation of `currentAgentIndex === 1 ? 2 : 1`, the hand-over to the other agent. -/
def flipAgent (i : Nat) : Nat := if i = 1 then 2 else 1

/-- The mutable run state of the script: the shared transcript, the turn
counter, and (for accountability) the number of backend calls issued so
far. -/
structure RunState where
  chatHistory : List Message
  turnCount : Nat
  gatewayCalls : Nat
deriving DecidableEq, Repr

/-- Translation of `autoChat(currentAgentIndex)`: stop once `turnCount >= MAX_TURNS`;
otherwise count the turn, resolve the acting agent, issue one gateway
call, append the resulting text under the acting agent's name, and recurse
with the other agent.  The backend oracle is indexed by the pre-increment
turn count so that each turn may see a different backend outcome. -/
def autoChat (cfg : Config) (backend : Nat → ChatRequest → BackendResult)
    (s : RunState) (currentAgentIndex : Nat) : RunState :=
  if s.turnCount ≥ cfg.maxTurns then s
  else
    let currentAgent := agentName cfg currentAgentIndex
    let responseText :=
      sendMessageToAgent cfg (backend s.turnCount) s.chatHistory currentAgent
        (agentSystem cfg currentAgentIndex)
    autoChat cfg backend
      ⟨s.chatHistory ++ [⟨currentAgent, responseText⟩], s.turnCount + 1, s.gatewayCalls + 1⟩
      (flipAgent currentAgentIndex)
termination_by cfg.maxTurns - s.turnCount
decreasing_by simp_all; omega

/-- The diagnostic printed when the last seeded speaker matches neither
agent: `(Last initial message was from '<name>'. <agent1> will start.)`. -/
def fallbackDiagnostic (cfg : Config) (lastSenderName : String) : String :=
  "\n(Last initial message was from " ++ sq ++ lastSenderName ++ sq ++ ". "
    ++ cfg.agent1Name ++ " will start.)"

/-- First-speaker decision from the last seeded entry's speaker, paired
with the diagnostic emitted in the fallback branch (`none` when no
diagnostic is printed). -/
def nextAgentIndex (cfg : Config) (lastSenderName : String) : Nat × Option String :=
  if lastSenderName = cfg.agent1Name then (2, none)
  else if lastSenderName = cfg.agent2Name then (1, none)
  else (1, some (fallbackDiagnostic cfg lastSenderName))

/-- The list of entries a run appends when `fuel` turns remain, given the
history and turn count at that point — the functional unrolling of
`autoChat`'s append effect. -/
def appendedEntries (cfg : Config) (backend : Nat → ChatRequest → BackendResult)
    (history : List Message) (turnCount : Nat) (i : Nat) : Nat → List Message
  | 0 => []
  | fuel + 1 =>
    let e : Message :=
      ⟨agentName cfg i,
        sendMessageToAgent cfg (backend turnCount) history (agentName cfg i)
          (agentSystem cfg i)⟩
    e :: appendedEntries cfg backend (history ++ [e]) (turnCount + 1) (flipAgent i) fuel

/-- The alternating name sequence starting with agent `i`. -/
def altNames (cfg : Config) (i : Nat) : Nat → List String
  | 0 => []
  | n + 1 => agentName cfg i :: altNames cfg (flipAgent i) n

/-- Master run lemma: when `n` turns remain, `autoChat` appends exactly
the entries described by `appendedEntries`, advances the turn counter by
`n`, and issues exactly `n` gateway calls. -/
theorem autoChat_eq_appendedEntries (cfg : Config)
    (backend : Nat → ChatRequest → BackendResult) :
    ∀ (n : Nat) (h : List Message) (t c i : Nat),
      cfg.maxTurns - t = n →
      autoChat cfg backend ⟨h, t, c⟩ i
        = ⟨h ++ appendedEntries cfg backend h t i n, t + n, c + n⟩ := by
  intro n
  induction n with
  | zero =>
    intro h t c i ht
    rw [autoChat.eq_def, if_pos (show t ≥ cfg.maxTurns by omega)]
    simp [appendedEntries]
  | succ n ih =>
    intro h t c i ht
    have step : autoChat cfg backend ⟨h, t, c⟩ i
        = autoChat cfg backend
            ⟨h ++ [⟨agentName cfg i,
                sendMessageToAgent cfg (backend t) h (agentName cfg i)
                  (agentSystem cfg i)⟩], t + 1, c + 1⟩
            (flipAgent i) := by
      rw [autoChat.eq_def, if_neg (show ¬ t ≥ cfg.maxTurns by omega)]
    rw [step, ih _ (t + 1) (c + 1) (flipAgent i) (by omega)]
    simp only [appendedEntries, List.append_assoc, List.singleton_append,
      RunState.mk.injEq, true_and]
    exact ⟨by omega, by omega⟩

/-- A run with `n` turns of fuel appends exactly `n` entries. -/
theorem appendedEntries_length (cfg : Config)
    (backend : Nat → ChatRequest → BackendResult) :
    ∀ (n : Nat) (h : List Message) (t i : Nat),
      (appendedEntries cfg backend h t i n).length = n := by
  intro n
  induction n with
  | zero => intro h t i; rfl
  | succ n ih =>
    intro h t i
    simp only [appendedEntries, List.length_cons, ih]

/-- The names of the appended entries form the alternating sequence that
starts with the first acting agent. -/
theorem appendedEntries_map_name (cfg : Config)
    (backend : Nat → ChatRequest → BackendResult) :
    ∀ (n : Nat) (h : List Message) (t i : Nat),
      (appendedEntries cfg backend h t i n).map (fun m => m.name)
        = altNames cfg i n := by
  intro n
  induction n with
  | zero => intro h t i; rfl
  | succ n ih =>
    intro h t i
    simp only [appendedEntries, List.map_cons, altNames, ih]

/-- Flipping the acting agent always lands on the other agent's name,
provided the two configured names differ. -/
theorem agentName_flipAgent (cfg : Config) (hne : cfg.agent1Name ≠ cfg.agent2Name)
    (i : Nat) (hi : i = 1 ∨ i = 2) :
    agentName cfg (flipAgent i)
      = (if agentName cfg i = cfg.agent1Name then cfg.agent2Name else cfg.agent1Name) := by
  rcases hi with rfl | rfl <;> simp [agentName, flipAgent, hne, Ne.symm hne]

/-- Consecutive elements of the alternating name sequence are always the
two distinct agent names in opposite order. -/
theorem altNames_consecutive (cfg : Config) (hne : cfg.agent1Name ≠ cfg.agent2Name) :
    ∀ (n : Nat) (i : Nat), (i = 1 ∨ i = 2) →
      ∀ (k : Nat) (x y : String),
        (altNames cfg i n).get? k = some x →
        (altNames cfg i n).get? (k + 1) = some y →
        y = (if x = cfg.agent1Name then cfg.agent2Name else cfg.agent1Name) := by
  intro n
  induction n with
  | zero => intro i hi k x y hx; simp [altNames] at hx
  | succ n ih =>
    intro i hi k x y hx hy
    match n, k with
    | 0, k => simp [altNames] at hy
    | n + 1, 0 =>
      simp only [altNames, List.get?] at hx hy
      obtain rfl : agentName cfg i = x := by exact Option.some.inj hx
      obtain rfl : agentName cfg (flipAgent i) = y := by exact Option.some.inj hy
      exact agentName_flipAgent cfg hne i hi
    | n + 1, k + 1 =>
      have hflip : flipAgent i = 1 ∨ flipAgent i = 2 := by
        rcases hi with rfl | rfl <;> simp [flipAgent]
      exact ih (flipAgent i) hflip k x y hx hy

/-- Element lookup just past a list prefix. -/
theorem get_append_middle (l : List Message) (e : Message) (r : List Message) :
    (l ++ e :: r).get? l.length = some e := by
  induction l with
  | nil => rfl
  | cons a l ih => exact ih

/-- Dropping a prefix of an append leaves the suffix. -/
theorem drop_append_left (l r : List Message) : (l ++ r).drop l.length = r := by
  induction l with
  | nil => rfl
  | cons a l ih => simp [ih]

/-- Length of the built context window, in closed form. -/
theorem buildContext_length (cfg : Config) (hist : List Message) (agent sys : String) :
    (buildContext cfg hist agent sys).length
      = (if sys ≠ "" then 1 else 0)
        + min hist.length
            (max 0 (cfg.chatMaxLength - (if sys ≠ "" then 1 else 0))).toNat := by
  unfold buildContext systemMessages
  by_cases hs : sys = "" <;> simp [hs, trimChatHistory_length] <;> omega

/-- A small concrete configuration used in the witnesses below. -/
def sampleConfig : Config :=
  { agent1Name := "Alice"
    agent2Name := "Bob"
    agent1System := "be concise"
    agent2System := ""
    ollamaHost := "http://localhost:11434"
    ollamaModel := "llama2"
    ollamaKeepAlive := none
    maxTurns := 2
    chatMaxLength := 20
    temperature := none
    repeatPenalty := none }

/-- A one-entry seeded transcript used in the witnesses below. -/
def sampleHistory : List Message := [⟨"Alice", "hi"⟩]

/-- A backend that always fails with a model-not-found message. -/
def sampleErrBackend : Nat → ChatRequest → BackendResult :=
  fun _ _ => BackendResult.err ⟨none, "pull llama2: file does not exist"⟩

/-- A backend that always succeeds with whitespace-only content. -/
def sampleWsBackend : Nat → ChatRequest → BackendResult :=
  fun _ _ => BackendResult.ok (some ⟨some ⟨some "  "⟩⟩)

/-- C4: for a positive window size, the built context never exceeds
`contextWindowSize` messages (the optional system message included); and
whenever the transcript fits into the available window, trimming is a
no-op and the context is the optional system message followed by the full
transcript re-labeled in original order. -/
theorem context_window_bound_and_noop (cfg : Config) (hist : List Message)
    (agent sys : String) (hN : 1 ≤ cfg.chatMaxLength) :
    ((buildContext cfg hist agent sys).length : Int) ≤ cfg.chatMaxLength
    ∧ ((hist.length : Int) ≤ cfg.chatMaxLength - (if sys ≠ "" then 1 else 0) →
        trimChatHistory hist (cfg.chatMaxLength - (if sys ≠ "" then 1 else 0)) = hist
        ∧ buildContext cfg hist agent sys
            = systemMessages sys ++ hist.map (relabel agent)) := by
  constructor
  · rw [buildContext_length]
    by_cases hs : sys = ""
    · have e1 : (if sys ≠ "" then (1 : Nat) else 0) = 0 := by simp [hs]
      have e2 : (if sys ≠ "" then (1 : Int) else 0) = 0 := by simp [hs]
      rw [e1, e2]
      omega
    · have e1 : (if sys ≠ "" then (1 : Nat) else 0) = 1 := by simp [hs]
      have e2 : (if sys ≠ "" then (1 : Int) else 0) = 1 := by simp [hs]
      rw [e1, e2]
      omega
  · intro hfit
    have h1 : trimChatHistory hist
        (cfg.chatMaxLength - (if sys ≠ "" then 1 else 0)) = hist := by
      unfold trimChatHistory
      rw [if_pos hfit]
    refine ⟨h1, ?_⟩
    unfold buildContext
    rw [h1]

/-- Witness for C4 at a concrete configuration and transcript. -/
theorem context_window_bound_and_noop_witness :
    (1 ≤ sampleConfig.chatMaxLength)
    ∧ (((buildContext sampleConfig sampleHistory "Alice" "be concise").length : Int)
          ≤ sampleConfig.chatMaxLength
        ∧ (((sampleHistory.length : Nat) : Int)
              ≤ sampleConfig.chatMaxLength - (if "be concise" ≠ "" then 1 else 0) →
            trimChatHistory sampleHistory
                (sampleConfig.chatMaxLength - (if "be concise" ≠ "" then 1 else 0))
              = sampleHistory
            ∧ buildContext sampleConfig sampleHistory "Alice" "be concise"
                = systemMessages "be concise" ++ sampleHistory.map (relabel "Alice"))) :=
  ⟨by decide, context_window_bound_and_noop sampleConfig sampleHistory "Alice" "be concise"
      (by decide)⟩

/-- C5: role labeling is viewpoint-relative: a context message built from
a transcript entry carries role `assistant` exactly when the entry's
speaker is the acting agent, role `user` otherwise, with the text carried
over unchanged; and the built context re-labels precisely the trimmed
window this way. -/
theorem role_labeling_viewpoint_relative (a : String) (m : Message) (cfg : Config)
    (hist : List Message) (sys : String) :
    ((relabel a m).role = Role.assistant ↔ m.name = a)
    ∧ ((relabel a m).role = Role.user ↔ ¬ m.name = a)
    ∧ (relabel m.name m).role = Role.assistant
    ∧ (relabel a m).content = m.message
    ∧ buildContext cfg hist a sys
        = systemMessages sys
          ++ (trimChatHistory hist
                (cfg.chatMaxLength - (if sys ≠ "" then 1 else 0))).map (relabel a) := by
  refine ⟨?_, ?_, ?_, rfl, rfl⟩
  · unfold relabel roleFor
    by_cases h : m.name = a <;> simp [h]
  · unfold relabel roleFor
    by_cases h : m.name = a <;> simp [h]
  · unfold relabel roleFor
    simp

/-- C9: whenever the effective window bound (`contextWindowSize` minus the
system-prompt slot) is non-positive, the trimmed window is empty and the
built context is just the optional system message — total, no failure. -/
theorem degenerate_window_is_empty (cfg : Config) (hist : List Message)
    (agent sys : String)
    (h : cfg.chatMaxLength - (if sys ≠ "" then 1 else 0) ≤ 0) :
    trimChatHistory hist (cfg.chatMaxLength - (if sys ≠ "" then 1 else 0)) = []
    ∧ buildContext cfg hist agent sys = systemMessages sys := by
  have h1 : trimChatHistory hist
      (cfg.chatMaxLength - (if sys ≠ "" then 1 else 0)) = [] := by
    rw [trimChatHistory_eq_drop]
    have h0 : (max 0 (cfg.chatMaxLength - (if sys ≠ "" then 1 else 0))).toNat = 0 := by
      omega
    rw [h0]
    exact List.drop_eq_nil_of_le (by omega)
  refine ⟨h1, ?_⟩
  unfold buildContext
  rw [h1, List.map_nil, List.append_nil]

/-- Witness for C9: window size 1 with a non-empty system prompt leaves no
history slot on a two-entry transcript. -/
theorem degenerate_window_is_empty_witness :
    (({ sampleConfig with chatMaxLength := 1 } : Config).chatMaxLength
        - (if "be concise" ≠ "" then 1 else 0) ≤ 0)
    ∧ (trimChatHistory sampleHistory
          (({ sampleConfig with chatMaxLength := 1 } : Config).chatMaxLength
            - (if "be concise" ≠ "" then 1 else 0)) = []
        ∧ buildContext { sampleConfig with chatMaxLength := 1 } sampleHistory
            "Alice" "be concise" = systemMessages "be concise") :=
  ⟨by decide, degenerate_window_is_empty { sampleConfig with chatMaxLength := 1 }
      sampleHistory "Alice" "be concise" (by decide)⟩

/-- C1: a completed run appends exactly `maxTurns` entries beyond the
seeded initial messages: the final transcript length is the seed length
plus `maxTurns`, no more and no less. -/
theorem run_appends_exactly_maxTurns (cfg : Config)
    (backend : Nat → ChatRequest → BackendResult)
    (init : List Message) (i : Nat)
    (hmax : 0 < cfg.maxTurns) (hinit : init ≠ []) :
    (autoChat cfg backend ⟨init, 0, 0⟩ i).chatHistory.length
      = init.length + cfg.maxTurns := by
  rw [autoChat_eq_appendedEntries cfg backend cfg.maxTurns init 0 0 i (by omega)]
  simp [appendedEntries_length]

/-- Witness for C1: a two-turn run over a one-entry seed ends with three
entries. -/
theorem run_appends_exactly_maxTurns_witness :
    (0 < sampleConfig.maxTurns ∧ sampleHistory ≠ [])
    ∧ (autoChat sampleConfig sampleErrBackend ⟨sampleHistory, 0, 0⟩ 2).chatHistory.length
        = sampleHistory.length + sampleConfig.maxTurns :=
  ⟨⟨by decide, by decide⟩,
    run_appends_exactly_maxTurns sampleConfig sampleErrBackend sampleHistory 2
      (by decide) (by decide)⟩

/-- C2: over a whole run the appended turns strictly alternate between
the two agent names — each appended entry is followed by one under the
other agent's name — and the number of gateway calls equals the number of
appended turns (`maxTurns`), whatever the backend produces on each turn,
error placeholders included. -/
theorem run_alternates_agents (cfg : Config)
    (backend : Nat → ChatRequest → BackendResult)
    (init : List Message) (i : Nat)
    (hne : cfg.agent1Name ≠ cfg.agent2Name) (hi : i = 1 ∨ i = 2) :
    ((autoChat cfg backend ⟨init, 0, 0⟩ i).chatHistory.drop init.length).length
        = cfg.maxTurns
    ∧ (autoChat cfg backend ⟨init, 0, 0⟩ i).gatewayCalls = cfg.maxTurns
    ∧ ∀ (k : Nat) (x y : Message),
        ((autoChat cfg backend ⟨init, 0, 0⟩ i).chatHistory.drop init.length).get? k
            = some x →
        ((autoChat cfg backend ⟨init, 0, 0⟩ i).chatHistory.drop init.length).get? (k + 1)
            = some y →
        y.name = (if x.name = cfg.agent1Name then cfg.agent2Name else cfg.agent1Name) := by
  rw [autoChat_eq_appendedEntries cfg backend cfg.maxTurns init 0 0 i (by omega)]
  simp only [drop_append_left]
  refine ⟨appendedEntries_length cfg backend cfg.maxTurns init 0 i, by omega, ?_⟩
  intro k x y hx hy
  have hmap := appendedEntries_map_name cfg backend cfg.maxTurns init 0 i
  have hx' : (altNames cfg i cfg.maxTurns).get? k = some x.name := by
    rw [← hmap, List.get?_map, hx]
    rfl
  have hy' : (altNames cfg i cfg.maxTurns).get? (k + 1) = some y.name := by
    rw [← hmap, List.get?_map, hy]
    rfl
  exact altNames_consecutive cfg hne cfg.maxTurns i hi k x.name y.name hx' hy'

/-- Witness for C2 at a concrete run. -/
theorem run_alternates_agents_witness :
    (sampleConfig.agent1Name ≠ sampleConfig.agent2Name ∧ ((2 : Nat) = 1 ∨ (2 : Nat) = 2))
    ∧ (((autoChat sampleConfig sampleErrBackend ⟨sampleHistory, 0, 0⟩ 2).chatHistory.drop
            sampleHistory.length).length = sampleConfig.maxTurns
        ∧ (autoChat sampleConfig sampleErrBackend ⟨sampleHistory, 0, 0⟩ 2).gatewayCalls
            = sampleConfig.maxTurns
        ∧ ∀ (k : Nat) (x y : Message),
            ((autoChat sampleConfig sampleErrBackend ⟨sampleHistory, 0, 0⟩ 2).chatHistory.drop
                sampleHistory.length).get? k = some x →
            ((autoChat sampleConfig sampleErrBackend ⟨sampleHistory, 0, 0⟩ 2).chatHistory.drop
                sampleHistory.length).get? (k + 1) = some y →
            y.name = (if x.name = sampleConfig.agent1Name then sampleConfig.agent2Name
                      else sampleConfig.agent1Name)) :=
  ⟨⟨by decide, by decide⟩,
    run_alternates_agents sampleConfig sampleErrBackend sampleHistory 2
      (by decide) (by decide)⟩

/-- C3: a backend failure never escapes the gateway: the turn's text is
the exact connection-refused placeholder on an `ECONNREFUSED` code, the
exact model-not-found placeholder when the message reports the model
could not be pulled, and the generic placeholder otherwise; that string
is appended as the turn's transcript text and the run still completes all
`maxTurns` turns. -/
theorem gateway_failure_becomes_placeholder (cfg : Config) (c : Option String)
    (m : String) (backend : Nat → ChatRequest → BackendResult)
    (init : List Message) (i : Nat)
    (hb : ∀ t req, backend t req = BackendResult.err ⟨c, m⟩)
    (hmax : 0 < cfg.maxTurns) :
    (c = some "ECONNREFUSED" →
      errorToResponseText cfg ⟨c, m⟩
        = "(Error: Could not connect to Ollama server at " ++ cfg.ollamaHost
            ++ ". Is Ollama running?)")
    ∧ (c ≠ some "ECONNREFUSED" →
        jsIncludes m ("pull " ++ cfg.ollamaModel ++ ": file does not exist") = true →
        errorToResponseText cfg ⟨c, m⟩
          = "(Error: Ollama model " ++ sq ++ cfg.ollamaModel ++ sq
              ++ " not found. Did you run " ++ sq ++ "ollama run " ++ cfg.ollamaModel
              ++ sq ++ "?)")
    ∧ (c ≠ some "ECONNREFUSED" →
        jsIncludes m ("pull " ++ cfg.ollamaModel ++ ": file does not exist") = false →
        errorToResponseText cfg ⟨c, m⟩
          = "(Error: Could not generate response - " ++ m ++ ")")
    ∧ (∀ (hist : List Message) (agent sys : String) (t : Nat),
        sendMessageToAgent cfg (backend t) hist agent sys = errorToResponseText cfg ⟨c, m⟩)
    ∧ (autoChat cfg backend ⟨init, 0, 0⟩ i).chatHistory.get? init.length
        = some ⟨agentName cfg i, errorToResponseText cfg ⟨c, m⟩⟩
    ∧ (autoChat cfg backend ⟨init, 0, 0⟩ i).chatHistory.length
        = init.length + cfg.maxTurns := by
  have hsend : ∀ (hist : List Message) (agent sys : String) (t : Nat),
      sendMessageToAgent cfg (backend t) hist agent sys
        = errorToResponseText cfg ⟨c, m⟩ := by
    intro hist agent sys t
    unfold sendMessageToAgent
    rw [hb]
  have hrun := autoChat_eq_appendedEntries cfg backend cfg.maxTurns init 0 0 i (by omega)
  refine ⟨?_, ?_, ?_, hsend, ?_, ?_⟩
  · intro hc
    unfold errorToResponseText
    rw [if_pos hc]
  · intro hc hinc
    unfold errorToResponseText
    rw [if_neg hc, if_pos hinc]
  · intro hc hinc
    unfold errorToResponseText
    rw [if_neg hc, if_neg (by simp [hinc])]
  · obtain ⟨n, hn⟩ : ∃ n, cfg.maxTurns = n + 1 := ⟨cfg.maxTurns - 1, by omega⟩
    rw [hrun, hn]
    simp only [appendedEntries]
    rw [get_append_middle, hsend]
  · rw [hrun]
    simp [appendedEntries_length]

/-- Witness for C3: a backend that always reports a model-not-found
failure. -/
theorem gateway_failure_becomes_placeholder_witness :
    ((∀ (t : Nat) (req : ChatRequest),
        sampleErrBackend t req
          = BackendResult.err ⟨none, "pull llama2: file does not exist"⟩)
      ∧ 0 < sampleConfig.maxTurns)
    ∧ ((none = some "ECONNREFUSED" →
          errorToResponseText sampleConfig ⟨none, "pull llama2: file does not exist"⟩
            = "(Error: Could not connect to Ollama server at " ++ sampleConfig.ollamaHost
                ++ ". Is Ollama running?)")
        ∧ ((none : Option String) ≠ some "ECONNREFUSED" →
            jsIncludes "pull llama2: file does not exist"
                ("pull " ++ sampleConfig.ollamaModel ++ ": file does not exist") = true →
            errorToResponseText sampleConfig ⟨none, "pull llama2: file does not exist"⟩
              = "(Error: Ollama model " ++ sq ++ sampleConfig.ollamaModel ++ sq
                  ++ " not found. Did you run " ++ sq ++ "ollama run "
                  ++ sampleConfig.ollamaModel ++ sq ++ "?)")
        ∧ ((none : Option String) ≠ some "ECONNREFUSED" →
            jsIncludes "pull llama2: file does not exist"
                ("pull " ++ sampleConfig.ollamaModel ++ ": file does not exist") = false →
            errorToResponseText sampleConfig ⟨none, "pull llama2: file does not exist"⟩
              = "(Error: Could not generate response - "
                  ++ "pull llama2: file does not exist" ++ ")")
        ∧ (∀ (hist : List Message) (agent sys : String) (t : Nat),
            sendMessageToAgent sampleConfig (sampleErrBackend t) hist agent sys
              = errorToResponseText sampleConfig ⟨none, "pull llama2: file does not exist"⟩)
        ∧ (autoChat sampleConfig sampleErrBackend ⟨sampleHistory, 0, 0⟩ 1).chatHistory.get?
              sampleHistory.length
            = some ⟨agentName sampleConfig 1,
                errorToResponseText sampleConfig ⟨none, "pull llama2: file does not exist"⟩⟩
        ∧ (autoChat sampleConfig sampleErrBackend ⟨sampleHistory, 0, 0⟩ 1).chatHistory.length
            = sampleHistory.length + sampleConfig.maxTurns) :=
  ⟨⟨fun _ _ => rfl, by decide⟩,
    gateway_failure_becomes_placeholder sampleConfig none
      "pull llama2: file does not exist" sampleErrBackend sampleHistory 1
      (fun _ _ => rfl) (by decide)⟩

/-- C6: the first acting agent is read off the last seeded speaker:
agent 1's name hands the first turn to agent 2, agent 2's name hands it to
agent 1, and any other name defaults to agent 1 together with an emitted
diagnostic. -/
theorem first_speaker_from_last_seed (cfg : Config) (last : String)
    (hne : cfg.agent1Name ≠ cfg.agent2Name) :
    (last = cfg.agent1Name → nextAgentIndex cfg last = (2, none))
    ∧ (last = cfg.agent2Name → nextAgentIndex cfg last = (1, none))
    ∧ (last ≠ cfg.agent1Name → last ≠ cfg.agent2Name →
        nextAgentIndex cfg last = (1, some (fallbackDiagnostic cfg last))) := by
  refine ⟨?_, ?_, ?_⟩
  · intro h
    unfold nextAgentIndex
    rw [if_pos h]
  · intro h
    unfold nextAgentIndex
    rw [if_neg (show ¬last = cfg.agent1Name by rw [h]; exact fun e => hne e.symm),
      if_pos h]
  · intro h1 h2
    unfold nextAgentIndex
    rw [if_neg h1, if_neg h2]

/-- Witness for C6: a last seeded speaker matching neither agent. -/
theorem first_speaker_from_last_seed_witness :
    (sampleConfig.agent1Name ≠ sampleConfig.agent2Name)
    ∧ (("Carol" = sampleConfig.agent1Name →
          nextAgentIndex sampleConfig "Carol" = (2, none))
        ∧ ("Carol" = sampleConfig.agent2Name →
            nextAgentIndex sampleConfig "Carol" = (1, none))
        ∧ ("Carol" ≠ sampleConfig.agent1Name → "Carol" ≠ sampleConfig.agent2Name →
            nextAgentIndex sampleConfig "Carol"
              = (1, some (fallbackDiagnostic sampleConfig "Carol")))) :=
  ⟨by decide, first_speaker_from_last_seed sampleConfig "Carol" (by decide)⟩

/-- C7: each optional decoding parameter appears in the outgoing request's
options exactly when it is configured, with its configured value; when
unset, its key is absent entirely (configuring neither yields an empty
options object). -/
theorem optional_params_sent_iff_defined (t r : Option Rat) (cfg : Config)
    (hist : List Message) (agent sys : String) :
    (buildRequest cfg hist agent sys).options
        = chatOptions cfg.temperature cfg.repeatPenalty
    ∧ (∀ v : Rat, ("temperature", v) ∈ chatOptions t r ↔ t = some v)
    ∧ (∀ v : Rat, ("repeat_penalty", v) ∈ chatOptions t r ↔ r = some v)
    ∧ chatOptions none none = []
    ∧ ("temperature" ∈ (chatOptions t r).map Prod.fst ↔ t ≠ none)
    ∧ ("repeat_penalty" ∈ (chatOptions t r).map Prod.fst ↔ r ≠ none) := by
  refine ⟨rfl, ?_, ?_, rfl, ?_, ?_⟩ <;>
    cases t <;> cases r <;> simp [chatOptions, Prod.ext_iff, eq_comm]

/-- C8: a successful response's text is its message content with leading
and trailing whitespace trimmed; a missing content (at any level of the
response) yields the literal fallback sentence. -/
theorem result_extraction_trims_or_fallback (s : String) (r : Option ChatResponse)
    (cfg : Config) (hist : List Message) (agent sys : String) :
    extractResponseText (some ⟨some ⟨some s⟩⟩) = jsTrim s
    ∧ extractResponseText (some ⟨some ⟨none⟩⟩)
        = "No valid content received from the Ollama model."
    ∧ extractResponseText (some ⟨none⟩)
        = "No valid content received from the Ollama model."
    ∧ extractResponseText none
        = "No valid content received from the Ollama model."
    ∧ jsTrim "  hello  " = "hello"
    ∧ sendMessageToAgent cfg (fun _ => BackendResult.ok r) hist agent sys
        = extractResponseText r :=
  ⟨rfl, rfl, rfl, rfl, by decide, rfl⟩

/-- C10: a whitespace-only (or empty) string content is not the fallback
case: the gateway returns the empty string — the trim of the content, not
the fallback sentence — and the turn's entry is appended with empty text. -/
theorem whitespace_content_not_fallback (s : String) (cfg : Config)
    (backend : Nat → ChatRequest → BackendResult) (init : List Message) (i : Nat)
    (hws : ∀ ch ∈ s.data, isJsWhitespace ch = true)
    (hmax : 0 < cfg.maxTurns)
    (hb : backend 0 (buildRequest cfg init (agentName cfg i) (agentSystem cfg i))
        = BackendResult.ok (some ⟨some ⟨some s⟩⟩)) :
    extractResponseText (some ⟨some ⟨some s⟩⟩) = ""
    ∧ (∀ c : String, extractResponseText (some ⟨some ⟨some c⟩⟩) = jsTrim c)
    ∧ ("" : String) ≠ "No valid content received from the Ollama model."
    ∧ (autoChat cfg backend ⟨init, 0, 0⟩ i).chatHistory.get? init.length
        = some ⟨agentName cfg i, ""⟩ := by
  have htrim : jsTrim s = "" := by
    unfold jsTrim
    rw [List.dropWhile_eq_nil_iff.mpr hws]
    rfl
  have hextract : extractResponseText (some ⟨some ⟨some s⟩⟩) = "" := htrim
  refine ⟨hextract, fun c => rfl, by decide, ?_⟩
  obtain ⟨n, hn⟩ : ∃ n, cfg.maxTurns = n + 1 := ⟨cfg.maxTurns - 1, by omega⟩
  rw [autoChat_eq_appendedEntries cfg backend cfg.maxTurns init 0 0 i (by omega), hn]
  simp only [appendedEntries]
  rw [get_append_middle]
  have hmsg : sendMessageToAgent cfg (backend 0) init (agentName cfg i)
      (agentSystem cfg i) = "" := by
    unfold sendMessageToAgent
    rw [hb]
    exact hextract
  rw [hmsg]

/-- Witness for C10: a two-space content string on a concrete run. -/
theorem whitespace_content_not_fallback_witness :
    ((∀ ch ∈ ("  " : String).data, isJsWhitespace ch = true)
      ∧ 0 < sampleConfig.maxTurns
      ∧ sampleWsBackend 0
          (buildRequest sampleConfig sampleHistory (agentName sampleConfig 2)
            (agentSystem sampleConfig 2))
          = BackendResult.ok (some ⟨some ⟨some "  "⟩⟩))
    ∧ (extractResponseText (some ⟨some ⟨some "  "⟩⟩) = ""
        ∧ (∀ c : String, extractResponseText (some ⟨some ⟨some c⟩⟩) = jsTrim c)
        ∧ ("" : String) ≠ "No valid content received from the Ollama model."
        ∧ (autoChat sampleConfig sampleWsBackend ⟨sampleHistory, 0, 0⟩ 2).chatHistory.get?
              sampleHistory.length
            = some ⟨agentName sampleConfig 2, ""⟩) :=
  ⟨⟨by decide, by decide, rfl⟩,
    whitespace_content_not_fallback "  " sampleConfig sampleWsBackend sampleHistory 2
      (by decide) (by decide) rfl⟩

end JidoMondo
